import Mathlib

/-!
Shallow embedding of the `libstatistics_collector` aggregation core.

Number model: a non-NaN IEEE double is an exact rational, so finite
double values are embedded as `ℚ` and all arithmetic is exact (the spec
states its numeric equalities "exact over exact arithmetic").  NaN is a
distinguished constructor of the measurement type `Dbl` and of the
snapshot value type `DReal`.  The snapshot's standard deviation uses the
exact real square root `Real.sqrt`.
-/

namespace LibStatisticsCollector

/-- `std::numeric_limits<double>::max()`: the largest finite double,
`(2^53 - 1) * 2^971`.  Used by `Reset` as the `min_` sentinel. -/
def DBL_MAX : ℚ := (2 ^ 53 - 1) * 2 ^ 971

/-- `std::numeric_limits<double>::min()`: the smallest *positive normal*
double, `2^(-1022)`.  Used by `Reset` as the `max_` sentinel.  Note this
is a tiny positive number, not `-∞` and not the most negative double. -/
def DBL_MIN : ℚ := 1 / 2 ^ 1022

/-- A `double` measurement: either NaN or a finite value (exact rational). -/
inductive Dbl where
  | nan : Dbl
  | fin : ℚ → Dbl
  deriving DecidableEq

/-- The accumulator state of `MovingAverageStatistics`
(`moving_average.hpp`, private members).  Field defaults mirror the
in-class member initializers. -/
structure MovingAverageStatistics where
  average : ℚ := 0
  min : ℚ := DBL_MAX
  max : ℚ := DBL_MIN
  sum_of_square_diff_from_mean : ℚ := 0
  count : ℕ := 0
  deriving DecidableEq

/-- A snapshot value: NaN or an exact real. -/
inductive DReal where
  | nan : DReal
  | fin : ℝ → DReal

/-- `StatisticData` (`types.hpp`): field defaults mirror the in-class
initializers (`std::nan("")` for the four doubles, `0` for the count). -/
structure StatisticData where
  average : DReal := DReal.nan
  min : DReal := DReal.nan
  max : DReal := DReal.nan
  standard_deviation : DReal := DReal.nan
  sample_count : ℕ := 0

/-- `MovingAverageStatistics::Reset` (`moving_average.cpp`): reinstalls
the sentinels and zeroes the accumulators, ignoring the prior state. -/
def MovingAverageStatistics.Reset (_s : MovingAverageStatistics) :
    MovingAverageStatistics :=
  { average := 0
    min := DBL_MAX
    max := DBL_MIN
    sum_of_square_diff_from_mean := 0
    count := 0 }

/-- `MovingAverageStatistics::AddMeasurement` (`moving_average.cpp`):
NaN items are discarded; otherwise one Welford update, incrementing the
count first, updating the mean, then accumulating
`(item - previous_average) * (item - average)` with the new mean. -/
def MovingAverageStatistics.AddMeasurement (s : MovingAverageStatistics)
    (item : Dbl) : MovingAverageStatistics :=
  match item with
  | Dbl.nan => s
  | Dbl.fin x =>
    let count := s.count + 1
    let previous_average := s.average
    let average := previous_average + (x - previous_average) / (count : ℚ)
    { count := count
      average := average
      min := Min.min s.min x
      max := Max.max s.max x
      sum_of_square_diff_from_mean :=
        s.sum_of_square_diff_from_mean + (x - previous_average) * (x - average) }

/-- `MovingAverageStatistics::GetCount`. -/
def MovingAverageStatistics.GetCount (s : MovingAverageStatistics) : ℕ :=
  s.count

/-- `MovingAverageStatistics::GetStatistics` (`moving_average.cpp`): for
an empty window return the default-initialized (all-NaN, count 0)
`StatisticData`; otherwise copy the fields and compute
`sqrt(sum_of_square_diff_from_mean_ / count_)`. -/
noncomputable def MovingAverageStatistics.GetStatistics
    (s : MovingAverageStatistics) : StatisticData :=
  if s.count = 0 then {}
  else
    { sample_count := s.count
      average := DReal.fin (s.average : ℝ)
      min := DReal.fin (s.min : ℝ)
      max := DReal.fin (s.max : ℝ)
      standard_deviation :=
        DReal.fin (Real.sqrt
          ((s.sum_of_square_diff_from_mean : ℝ) / (s.count : ℝ))) }

/-- Feed a list of finite measurements in order (left to right). -/
def addList (s : MovingAverageStatistics) (xs : List ℚ) :
    MovingAverageStatistics :=
  xs.foldl (fun t x => t.AddMeasurement (Dbl.fin x)) s

/-- A fresh, default-constructed `MovingAverageStatistics`. -/
def freshStatistics : MovingAverageStatistics := {}

/-- `Collector` (`collector.hpp`/`collector.cpp`): the lifecycle flag
and the owned aggregator.  A specialization's pure-virtual
`SetupStart`/`SetupStop` hooks are modelled as explicit functions over
the specialization's own state `α` (the `adapter` field), returning the
hook's boolean result and the updated specialization state. -/
structure Collector (α : Type) where
  started : Bool := false
  collected_data : MovingAverageStatistics := {}
  adapter : α

/-- `Collector::Start` (`collector.cpp`): if already started, return
`false` without side effects; otherwise set `started_`, run the
specialization's `SetupStart` hook, and return the hook's result. -/
def Collector.Start {α : Type} (su : α → Bool × α) (c : Collector α) :
    Bool × Collector α :=
  if c.started then (false, c)
  else
    let r := su c.adapter
    (r.1, { c with started := true, adapter := r.2 })

/-- `Collector::ClearCurrentMeasurements`: resets the aggregator. -/
def Collector.ClearCurrentMeasurements {α : Type} (c : Collector α) :
    Collector α :=
  { c with collected_data := c.collected_data.Reset }

/-- `Collector::Stop` (`collector.cpp`): if not started, return `false`
without side effects; otherwise clear `started_`, run the `SetupStop`
hook, then unconditionally clear the measurements, and return the
hook's result. -/
def Collector.Stop {α : Type} (sd : α → Bool × α) (c : Collector α) :
    Bool × Collector α :=
  if c.started then
    let r := sd c.adapter
    let c1 : Collector α := { c with started := false, adapter := r.2 }
    (r.1, c1.ClearCurrentMeasurements)
  else (false, c)

/-- `Collector::AcceptData`: forwards to the aggregator. -/
def Collector.AcceptData {α : Type} (c : Collector α) (measurement : Dbl) :
    Collector α :=
  { c with collected_data := c.collected_data.AddMeasurement measurement }

/-- `Collector::IsStarted`. -/
def Collector.IsStarted {α : Type} (c : Collector α) : Bool := c.started

/-- `kUninitializedTime` (`received_message_period.hpp`): the sentinel
meaning "no message received yet". -/
def kUninitializedTime : Int := 0

/-- The state of a `ReceivedMessagePeriodCollector`
(`received_message_period.hpp`): its own `time_last_message_received_`
member together with the aggregator it inherits from `Collector`
(`collected_data_`, reached through `AcceptData`). -/
structure ReceivedMessagePeriodCollector where
  time_last_message_received : Int := kUninitializedTime
  collected_data : MovingAverageStatistics := {}
  deriving DecidableEq

/-- `ReceivedMessagePeriodCollector::OnMessageReceived`: on the first
message (sentinel still installed) only record the receipt time;
otherwise feed `(now - last) ns` converted to milliseconds to
`AcceptData` and update the last-received time. -/
def ReceivedMessagePeriodCollector.OnMessageReceived
    (s : ReceivedMessagePeriodCollector) (now_nanoseconds : Int) :
    ReceivedMessagePeriodCollector :=
  if s.time_last_message_received = kUninitializedTime then
    { s with time_last_message_received := now_nanoseconds }
  else
    let nanos : Int := now_nanoseconds - s.time_last_message_received
    let period : ℚ := (nanos : ℚ) / 1000000
    { time_last_message_received := now_nanoseconds
      collected_data := s.collected_data.AddMeasurement (Dbl.fin period) }

/-- `ReceivedMessagePeriodCollector::SetupStart`: resets the
last-received time to the uninitialized sentinel and returns `true`. -/
def ReceivedMessagePeriodCollector.SetupStart
    (s : ReceivedMessagePeriodCollector) :
    Bool × ReceivedMessagePeriodCollector :=
  (true, { s with time_last_message_received := kUninitializedTime })

/-- `statistics_msgs::msg::StatisticDataType` constants used by
`generate_statistics_message.cpp`. -/
inductive StatisticDataType where
  | STATISTICS_DATA_TYPE_AVERAGE
  | STATISTICS_DATA_TYPE_MINIMUM
  | STATISTICS_DATA_TYPE_MAXIMUM
  | STATISTICS_DATA_TYPE_STDDEV
  | STATISTICS_DATA_TYPE_SAMPLE_COUNT
  deriving DecidableEq

/-- `statistics_msgs::msg::StatisticDataPoint`. -/
structure StatisticDataPoint where
  data_type : StatisticDataType
  data : DReal

/-- `builtin_interfaces::msg::Time`. -/
structure Time where
  sec : Int := 0
  nanosec : ℕ := 0
  deriving DecidableEq

/-- `statistics_msgs::msg::MetricsMessage`. -/
structure MetricsMessage where
  measurement_source_name : String := ""
  metrics_source : String := ""
  unit : String := ""
  window_start : Time := {}
  window_stop : Time := {}
  statistics : List StatisticDataPoint := []

/-- `GenerateStatisticMessage` (`generate_statistics_message.cpp`):
copies the metadata fields, then appends five `StatisticDataPoint`
entries in program order (average, maximum, minimum, sample count cast
to a floating-point value, standard deviation), each tagged with its
type code. -/
noncomputable def GenerateStatisticMessage (node_name metric_name unit : String)
    (window_start window_stop : Time) (data : StatisticData) :
    MetricsMessage :=
  let msg : MetricsMessage :=
    { measurement_source_name := node_name
      metrics_source := metric_name
      unit := unit
      window_start := window_start
      window_stop := window_stop }
  let msg := { msg with statistics := msg.statistics ++
      [StatisticDataPoint.mk StatisticDataType.STATISTICS_DATA_TYPE_AVERAGE
         data.average] }
  let msg := { msg with statistics := msg.statistics ++
      [StatisticDataPoint.mk StatisticDataType.STATISTICS_DATA_TYPE_MAXIMUM
         data.max] }
  let msg := { msg with statistics := msg.statistics ++
      [StatisticDataPoint.mk StatisticDataType.STATISTICS_DATA_TYPE_MINIMUM
         data.min] }
  let msg := { msg with statistics := msg.statistics ++
      [StatisticDataPoint.mk StatisticDataType.STATISTICS_DATA_TYPE_SAMPLE_COUNT
         (DReal.fin (data.sample_count : ℝ))] }
  let msg := { msg with statistics := msg.statistics ++
      [StatisticDataPoint.mk StatisticDataType.STATISTICS_DATA_TYPE_STDDEV
         data.standard_deviation] }
  msg

/-- Modelled from the spec (§8): the arithmetic mean of a sequence of
observations. -/
def arithmeticMean (xs : List ℚ) : ℚ := xs.sum / xs.length

/-- Modelled from the spec: the squared deviations of each observation
from the arithmetic mean. -/
def squaredDeviations (xs : List ℚ) : List ℚ :=
  xs.map (fun x => (x - arithmeticMean xs) ^ 2)

/-- Modelled from the spec (§4.1, glossary): the two-pass population
variance `(1/n) * Σ (x_i - mean)^2`, divisor `count` (not `count - 1`). -/
def twoPassPopulationVariance (xs : List ℚ) : ℚ :=
  (squaredDeviations xs).sum / xs.length

/-- Sum of squares of a list, used to characterize the Welford
accumulator. -/
def sqSum (xs : List ℚ) : ℚ := (xs.map (fun x => x ^ 2)).sum

/-- A hook that succeeds and leaves the specialization state alone. -/
def trueHook : Unit → Bool × Unit := fun a => (true, a)

/-- A hook that fails and leaves the specialization state alone. -/
def falseHook : Unit → Bool × Unit := fun a => (false, a)

/-- A default-constructed (stopped) collector with trivial adapter. -/
def stoppedCollector : Collector Unit := { adapter := () }

/-- An aggregator that has recorded one observation. -/
def sampleStatistics : MovingAverageStatistics :=
  freshStatistics.AddMeasurement (Dbl.fin 2)

/-- A started collector holding one recorded observation. -/
def startedCollector : Collector Unit :=
  { started := true
    collected_data := sampleStatistics
    adapter := () }

/-- The all-NaN, zero-count snapshot returned for an empty window. -/
def allNaNSnapshot : StatisticData :=
  { average := DReal.nan
    min := DReal.nan
    max := DReal.nan
    standard_deviation := DReal.nan
    sample_count := 0 }

/-- Scenario (spec §8, end-to-end 3): a freshly constructed period
collector. -/
def periodEvent0 : ReceivedMessagePeriodCollector := {}

/-- The period collector after the first event at 1000000 ns. -/
def periodEvent1 : ReceivedMessagePeriodCollector :=
  periodEvent0.OnMessageReceived 1000000

/-- The period collector after the second event at 1050000 ns. -/
def periodEvent2 : ReceivedMessagePeriodCollector :=
  periodEvent1.OnMessageReceived 1050000

/-- The period collector after the third event at 1120000 ns. -/
def periodEvent3 : ReceivedMessagePeriodCollector :=
  periodEvent2.OnMessageReceived 1120000

end LibStatisticsCollector

namespace LibStatisticsCollector

open MovingAverageStatistics

/-- C1: `AddMeasurement` on a non-NaN input `x` performs exactly the
Welford step: count becomes `n + 1`, mean becomes `m + (x - m)/(n + 1)`,
min becomes `min lo x`, max becomes `max hi x`, and the sum of squared
differences grows by `(x - m) * (x - m')` where `m'` is the already
updated mean. -/
theorem addMeasurement_welford_step (s : MovingAverageStatistics) (x : ℚ) :
    s.AddMeasurement (Dbl.fin x) =
      { count := s.count + 1
        average := s.average + (x - s.average) / ((s.count : ℚ) + 1)
        min := Min.min s.min x
        max := Max.max s.max x
        sum_of_square_diff_from_mean :=
          s.sum_of_square_diff_from_mean +
            (x - s.average) *
              (x - (s.average + (x - s.average) / ((s.count : ℚ) + 1))) } := by
  simp [MovingAverageStatistics.AddMeasurement]

/-- C4: `AddMeasurement NaN` is a no-op: the state is unchanged, and a
subsequent `GetStatistics` or `GetCount` observes exactly the prior
state. -/
theorem addMeasurement_nan_noop (s : MovingAverageStatistics) :
    s.AddMeasurement Dbl.nan = s ∧
    (s.AddMeasurement Dbl.nan).GetStatistics = s.GetStatistics ∧
    (s.AddMeasurement Dbl.nan).GetCount = s.GetCount :=
  ⟨rfl, rfl, rfl⟩

/-- C3: whenever the count is 0 — in particular immediately after
`Reset`, regardless of prior history — `GetStatistics` returns a
snapshot whose average, min, max and standard deviation are all NaN and
whose sample count is 0. -/
theorem getStatistics_empty_window (s t : MovingAverageStatistics)
    (h : s.count = 0) :
    s.GetStatistics = allNaNSnapshot ∧
    (t.Reset).GetStatistics = allNaNSnapshot := by
  constructor
  · simp [MovingAverageStatistics.GetStatistics, h, allNaNSnapshot]
  · simp [MovingAverageStatistics.GetStatistics, MovingAverageStatistics.Reset,
      allNaNSnapshot]

/-- Witness for C3 at a fresh aggregator and an aggregator with one
recorded observation. -/
theorem getStatistics_empty_window_witness :
    freshStatistics.count = 0 ∧
    (freshStatistics.GetStatistics = allNaNSnapshot ∧
      (sampleStatistics.Reset).GetStatistics = allNaNSnapshot) :=
  ⟨rfl, getStatistics_empty_window freshStatistics sampleStatistics rfl⟩

/-- C5 (code-bug evidence): after `Reset`, the first observation `-1`
yields `count = 1`, `average = -1`, `min = -1`, but `max` stays at the
`DBL_MIN` sentinel `2^(-1022)` — the smallest positive normal double —
instead of the observed value: `std::numeric_limits<double>::min()` is
positive, so the sentinel is not overwritten by a first observation
smaller than it. -/
theorem reset_first_negative_observation_max_wrong :
    ((freshStatistics.Reset).AddMeasurement (Dbl.fin (-1))).count = 1 ∧
    ((freshStatistics.Reset).AddMeasurement (Dbl.fin (-1))).average = -1 ∧
    ((freshStatistics.Reset).AddMeasurement (Dbl.fin (-1))).min = -1 ∧
    ((freshStatistics.Reset).AddMeasurement (Dbl.fin (-1))).max = DBL_MIN ∧
    DBL_MIN ≠ (-1 : ℚ) := by
  have hmin : Min.min DBL_MAX (-1 : ℚ) = -1 := by
    rw [min_eq_right]
    rw [DBL_MAX]
    norm_num
  have hmax : Max.max DBL_MIN (-1 : ℚ) = DBL_MIN := by
    rw [max_eq_left]
    rw [DBL_MIN]
    norm_num
  refine ⟨rfl, ?_, ?_, ?_, ?_⟩
  · simp [MovingAverageStatistics.AddMeasurement, MovingAverageStatistics.Reset,
      freshStatistics]
  · simpa [MovingAverageStatistics.AddMeasurement, MovingAverageStatistics.Reset,
      freshStatistics] using hmin
  · simpa [MovingAverageStatistics.AddMeasurement, MovingAverageStatistics.Reset,
      freshStatistics] using hmax
  · rw [DBL_MIN]
    norm_num

/-- C6: `Stop` on a started collector always clears the aggregate
(`GetCount` is 0 afterwards) and returns the `SetupStop` hook's result —
even when that hook reports failure, the measurements are cleared. -/
theorem stop_clears_measurements {α : Type} (sd : α → Bool × α)
    (c : Collector α) (h : c.started = true) :
    ((Collector.Stop sd c).2.collected_data).GetCount = 0 ∧
    (Collector.Stop sd c).1 = (sd c.adapter).1 := by
  simp [Collector.Stop, Collector.ClearCurrentMeasurements, h,
    MovingAverageStatistics.Reset, MovingAverageStatistics.GetCount]

/-- Witness for C6 with a failing stop hook on a started collector that
holds one measurement. -/
theorem stop_clears_measurements_witness :
    startedCollector.started = true ∧
    (((Collector.Stop falseHook startedCollector).2.collected_data).GetCount = 0 ∧
      (Collector.Stop falseHook startedCollector).1 =
        (falseHook startedCollector.adapter).1) :=
  ⟨rfl, stop_clears_measurements falseHook startedCollector rfl⟩

/-- C7: with setup hooks whose boolean result is always `true`, `Start`
from the stopped state returns `true` then `false`, the second call
leaving the collector unchanged (the hook is not run again, so even a
state-mutating hook has no effect); symmetrically `Stop` from the
started state returns `true` then `false`, the second call leaving the
collector unchanged. -/
theorem start_stop_twice {α : Type} (su sd : α → Bool × α)
    (c d : Collector α)
    (hsu : ∀ a, (su a).1 = true) (hsd : ∀ a, (sd a).1 = true)
    (hc : c.started = false) (hd : d.started = true) :
    (Collector.Start su c).1 = true ∧
    (Collector.Start su c).2.started = true ∧
    (Collector.Start su (Collector.Start su c).2).1 = false ∧
    (Collector.Start su (Collector.Start su c).2).2 = (Collector.Start su c).2 ∧
    (Collector.Stop sd d).1 = true ∧
    (Collector.Stop sd (Collector.Stop sd d).2).1 = false ∧
    (Collector.Stop sd (Collector.Stop sd d).2).2 = (Collector.Stop sd d).2 := by
  simp [Collector.Start, Collector.Stop, Collector.ClearCurrentMeasurements,
    hc, hd, hsu, hsd]

/-- Witness for C7 with always-true hooks, a stopped collector and a
started collector. -/
theorem start_stop_twice_witness :
    stoppedCollector.started = false ∧ startedCollector.started = true ∧
    ((Collector.Start trueHook stoppedCollector).1 = true ∧
      (Collector.Start trueHook stoppedCollector).2.started = true ∧
      (Collector.Start trueHook (Collector.Start trueHook stoppedCollector).2).1 = false ∧
      (Collector.Start trueHook (Collector.Start trueHook stoppedCollector).2).2 =
        (Collector.Start trueHook stoppedCollector).2 ∧
      (Collector.Stop trueHook startedCollector).1 = true ∧
      (Collector.Stop trueHook (Collector.Stop trueHook startedCollector).2).1 = false ∧
      (Collector.Stop trueHook (Collector.Stop trueHook startedCollector).2).2 =
        (Collector.Stop trueHook startedCollector).2) :=
  ⟨rfl, rfl,
    start_stop_twice trueHook trueHook stoppedCollector startedCollector
      (fun _ => rfl) (fun _ => rfl) rfl rfl⟩

/-- C10: if `Start` is called on a stopped collector and the
`SetupStart` hook returns `false`, `Start` returns `false` but the
collector is nevertheless left started: `IsStarted` returns `true`, a
further `Start` returns `false`, and `Stop` returns its own hook's
result — the state change is not rolled back on hook failure. -/
theorem start_hook_failure_leaves_started {α : Type} (su sd : α → Bool × α)
    (c : Collector α) (hc : c.started = false)
    (hsu : (su c.adapter).1 = false) :
    (Collector.Start su c).1 = false ∧
    (Collector.Start su c).2.started = true ∧
    (Collector.Start su c).2.IsStarted = true ∧
    (Collector.Start su (Collector.Start su c).2).1 = false ∧
    (Collector.Stop sd (Collector.Start su c).2).1 =
      (sd (Collector.Start su c).2.adapter).1 := by
  simp [Collector.Start, Collector.Stop, Collector.IsStarted,
    Collector.ClearCurrentMeasurements, hc, hsu]

/-- Witness for C10 with a failing start hook on a stopped collector. -/
theorem start_hook_failure_leaves_started_witness :
    stoppedCollector.started = false ∧
    (falseHook stoppedCollector.adapter).1 = false ∧
    ((Collector.Start falseHook stoppedCollector).1 = false ∧
      (Collector.Start falseHook stoppedCollector).2.started = true ∧
      (Collector.Start falseHook stoppedCollector).2.IsStarted = true ∧
      (Collector.Start falseHook (Collector.Start falseHook stoppedCollector).2).1 = false ∧
      (Collector.Stop trueHook (Collector.Start falseHook stoppedCollector).2).1 =
        (trueHook (Collector.Start falseHook stoppedCollector).2.adapter).1) :=
  ⟨rfl, rfl,
    start_hook_failure_leaves_started falseHook trueHook stoppedCollector rfl rfl⟩

/-- C8: for the period adapter, `SetupStart` reinstalls the
uninitialized sentinel; an event arriving while the sentinel is
installed only records the receipt time and feeds no observation; every
subsequent event feeds exactly one observation `(now - last) / 10^6`
milliseconds and sets the last-received time to `now`; and the
three-event scenario at receipt times 1000000, 1050000, 1120000 ns
yields no observation after the first event, then exactly the
observations 0.05 ms and 0.07 ms, with final count 2 and average period
0.06 ms. -/
theorem onMessageReceived_period (s : ReceivedMessagePeriodCollector)
    (now : Int) :
    (s.SetupStart).2.time_last_message_received = kUninitializedTime ∧
    (s.time_last_message_received = kUninitializedTime →
      s.OnMessageReceived now =
        { s with time_last_message_received := now }) ∧
    (s.time_last_message_received ≠ kUninitializedTime →
      s.OnMessageReceived now =
        { time_last_message_received := now
          collected_data := s.collected_data.AddMeasurement
            (Dbl.fin (((now - s.time_last_message_received : Int) : ℚ) /
              1000000)) }) ∧
    periodEvent1.collected_data.GetCount = 0 ∧
    periodEvent2.collected_data =
      periodEvent0.collected_data.AddMeasurement (Dbl.fin 0.05) ∧
    periodEvent3.collected_data =
      (periodEvent0.collected_data.AddMeasurement (Dbl.fin 0.05)).AddMeasurement
        (Dbl.fin 0.07) ∧
    periodEvent3.collected_data.GetCount = 2 ∧
    periodEvent3.collected_data.average = 0.06 := by
  have he1 : periodEvent1 =
      { time_last_message_received := 1000000
        collected_data := freshStatistics } := rfl
  have harg1 : (((1050000 : Int) - 1000000 : Int) : ℚ) / 1000000 =
      (0.05 : ℚ) := by norm_num
  have harg2 : (((1120000 : Int) - 1050000 : Int) : ℚ) / 1000000 =
      (0.07 : ℚ) := by norm_num
  have he2 : periodEvent2 =
      { time_last_message_received := 1050000
        collected_data := freshStatistics.AddMeasurement (Dbl.fin 0.05) } := by
    rw [periodEvent2, he1]
    rw [ReceivedMessagePeriodCollector.OnMessageReceived]
    simp only [kUninitializedTime]
    rw [if_neg (by norm_num)]
    rw [harg1]
  have he3 : periodEvent3 =
      { time_last_message_received := 1120000
        collected_data :=
          (freshStatistics.AddMeasurement (Dbl.fin 0.05)).AddMeasurement
            (Dbl.fin 0.07) } := by
    rw [periodEvent3, he2]
    rw [ReceivedMessagePeriodCollector.OnMessageReceived]
    simp only [kUninitializedTime]
    rw [if_neg (by norm_num)]
    rw [harg2]
  refine ⟨rfl, ?_, ?_, rfl, ?_, ?_, ?_, ?_⟩
  · intro h
    rw [ReceivedMessagePeriodCollector.OnMessageReceived, if_pos h]
  · intro h
    rw [ReceivedMessagePeriodCollector.OnMessageReceived, if_neg h]
  · rw [he2]
    rfl
  · rw [he3]
    rfl
  · rw [he3, MovingAverageStatistics.GetCount]
    rfl
  · rw [he3]
    show ((freshStatistics.AddMeasurement (Dbl.fin 0.05)).AddMeasurement
      (Dbl.fin 0.07)).average = 0.06
    rw [MovingAverageStatistics.AddMeasurement, MovingAverageStatistics.AddMeasurement]
    simp only [freshStatistics]
    norm_num

/-- Witness for C8: a collector that has seen a message at time 7
resets to the sentinel under `SetupStart`, and an event at time 12 then
feeds the period observation `(12 - 7) / 10^6` ms. -/
theorem onMessageReceived_period_witness :
    (ReceivedMessagePeriodCollector.mk 7 freshStatistics).time_last_message_received ≠
      kUninitializedTime ∧
    (ReceivedMessagePeriodCollector.mk 7 freshStatistics).OnMessageReceived 12 =
      { time_last_message_received := 12
        collected_data := freshStatistics.AddMeasurement
          (Dbl.fin ((((12 : Int) - 7 : Int) : ℚ) / 1000000)) } :=
  ⟨by decide,
    (onMessageReceived_period (ReceivedMessagePeriodCollector.mk 7 freshStatistics)
      12).2.2.1 (by decide)⟩

/-- C9: `GenerateStatisticMessage` copies the metadata fields (source
name, metric name, unit, window start, window stop) unchanged and
produces exactly five statistics entries in the fixed order AVERAGE,
MAXIMUM, MINIMUM, SAMPLE_COUNT, STDDEV, each tagged with its enumerated
type code, the SAMPLE_COUNT entry carrying the sample count converted
to a floating-point value and the other entries carrying the snapshot's
corresponding fields.  The function is a total pure function of its
arguments (it cannot fail and mutates nothing). -/
theorem generateStatisticMessage_spec (node_name metric_name unit : String)
    (window_start window_stop : Time) (data : StatisticData) :
    (GenerateStatisticMessage node_name metric_name unit window_start
      window_stop data) =
      { measurement_source_name := node_name
        metrics_source := metric_name
        unit := unit
        window_start := window_start
        window_stop := window_stop
        statistics :=
          [StatisticDataPoint.mk
             StatisticDataType.STATISTICS_DATA_TYPE_AVERAGE data.average,
           StatisticDataPoint.mk
             StatisticDataType.STATISTICS_DATA_TYPE_MAXIMUM data.max,
           StatisticDataPoint.mk
             StatisticDataType.STATISTICS_DATA_TYPE_MINIMUM data.min,
           StatisticDataPoint.mk
             StatisticDataType.STATISTICS_DATA_TYPE_SAMPLE_COUNT
             (DReal.fin (data.sample_count : ℝ)),
           StatisticDataPoint.mk
             StatisticDataType.STATISTICS_DATA_TYPE_STDDEV
             data.standard_deviation] } ∧
    (GenerateStatisticMessage node_name metric_name unit window_start
      window_stop data).statistics.length = 5 :=
  ⟨rfl, rfl⟩

theorem addList_append_singleton (s : MovingAverageStatistics)
    (ys : List ℚ) (x : ℚ) :
    addList s (ys ++ [x]) = (addList s ys).AddMeasurement (Dbl.fin x) := by
  simp [addList, List.foldl_append]

theorem sum_squaredDeviations (xs : List ℚ) (m : ℚ) :
    (xs.map (fun y => (y - m) ^ 2)).sum
      = sqSum xs - 2 * m * xs.sum + (xs.length : ℚ) * m ^ 2 := by
  induction xs with
  | nil => simp [sqSum]
  | cons a l ih =>
    simp only [List.map_cons, List.sum_cons, sqSum, List.length_cons,
      List.sum_map_mul_left] at ih ⊢
    rw [ih]
    push_cast
    ring

theorem twoPassPopulationVariance_closed_form (xs : List ℚ) (hx : xs ≠ []) :
    twoPassPopulationVariance xs
      = (sqSum xs - xs.sum ^ 2 / (xs.length : ℚ)) / (xs.length : ℚ) := by
  have hlen : xs.length ≠ 0 := fun h => hx (List.length_eq_zero.mp h)
  have hn : ((xs.length : ℚ)) ≠ 0 := Nat.cast_ne_zero.mpr hlen
  rw [twoPassPopulationVariance, squaredDeviations, sum_squaredDeviations,
    arithmeticMean]
  field_simp
  ring

/-- The Welford accumulator after feeding a non-empty list from a reset
state: the count is the length, the running mean is `sum / length`, and
the accumulated sum of squared differences is
`Σ x_i^2 - (Σ x_i)^2 / length`. -/
theorem addList_reset_characterization (xs : List ℚ) (hx : xs ≠ [])
    (s0 : MovingAverageStatistics) :
    (addList (s0.Reset) xs).count = xs.length ∧
    (addList (s0.Reset) xs).average = xs.sum / (xs.length : ℚ) ∧
    (addList (s0.Reset) xs).sum_of_square_diff_from_mean
      = sqSum xs - xs.sum ^ 2 / (xs.length : ℚ) := by
  induction xs using List.reverseRecOn with
  | nil => exact absurd rfl hx
  | append_singleton ys x ih =>
    rcases eq_or_ne ys [] with rfl | hys
    · refine ⟨rfl, ?_, ?_⟩
      · simp [addList, MovingAverageStatistics.AddMeasurement,
          MovingAverageStatistics.Reset]
      · simp [addList, MovingAverageStatistics.AddMeasurement,
          MovingAverageStatistics.Reset, sqSum]
    · obtain ⟨c1, c2, c3⟩ := ih hys
      have hlen : ys.length ≠ 0 := fun h => hys (List.length_eq_zero.mp h)
      have hn : ((ys.length : ℚ)) ≠ 0 := Nat.cast_ne_zero.mpr hlen
      have hn1 : ((ys.length : ℚ) + 1) ≠ 0 := by positivity
      rw [addList_append_singleton]
      refine ⟨?_, ?_, ?_⟩
      · simp [MovingAverageStatistics.AddMeasurement, c1]
      · simp only [MovingAverageStatistics.AddMeasurement]
        simp only [c1, c2, List.sum_append, List.length_append,
          List.sum_cons, List.sum_nil, List.length_cons, List.length_nil]
        push_cast
        field_simp
        ring
      · simp only [MovingAverageStatistics.AddMeasurement]
        simp only [c1, c2, c3, sqSum, List.map_append, List.sum_append,
          List.length_append, List.map_cons, List.map_nil, List.sum_cons,
          List.sum_nil, List.length_cons, List.length_nil]
        push_cast
        field_simp
        ring

/-- C2: feeding any non-empty sequence of non-NaN observations into a
freshly reset aggregator makes `GetStatistics` return an average equal
to the arithmetic mean of the sequence and a standard deviation equal
to the two-pass population standard deviation
`sqrt((1/n) * Σ (x_i - mean)^2)` — divisor `count`, not `count - 1` —
exactly, over exact arithmetic. -/
theorem getStatistics_matches_two_pass (xs : List ℚ) (hx : xs ≠ [])
    (s0 : MovingAverageStatistics) :
    ((addList (s0.Reset) xs).GetStatistics).average
      = DReal.fin ((arithmeticMean xs : ℚ) : ℝ) ∧
    ((addList (s0.Reset) xs).GetStatistics).standard_deviation
      = DReal.fin (Real.sqrt ((twoPassPopulationVariance xs : ℚ) : ℝ)) := by
  obtain ⟨c1, c2, c3⟩ := addList_reset_characterization xs hx s0
  have hlen : xs.length ≠ 0 := fun h => hx (List.length_eq_zero.mp h)
  have hcount : (addList (s0.Reset) xs).count ≠ 0 := by
    rw [c1]; exact hlen
  have hn : ((xs.length : ℚ)) ≠ 0 := Nat.cast_ne_zero.mpr hlen
  rw [MovingAverageStatistics.GetStatistics, if_neg hcount]
  constructor
  · simp only [c2, arithmeticMean]
  · simp only
    have harg : (((addList (s0.Reset) xs).sum_of_square_diff_from_mean : ℚ) : ℝ)
        / (((addList (s0.Reset) xs).count : ℕ) : ℝ)
        = ((twoPassPopulationVariance xs : ℚ) : ℝ) := by
      rw [c3, c1, twoPassPopulationVariance_closed_form xs hx]
      push_cast
      ring
    rw [harg]

/-- Witness for C2 at the sequence `[1, 2, 3]`. -/
theorem getStatistics_matches_two_pass_witness :
    ([(1 : ℚ), 2, 3] ≠ []) ∧
    (((addList (freshStatistics.Reset) [(1 : ℚ), 2, 3]).GetStatistics).average
        = DReal.fin ((arithmeticMean [(1 : ℚ), 2, 3] : ℚ) : ℝ) ∧
      ((addList (freshStatistics.Reset)
          [(1 : ℚ), 2, 3]).GetStatistics).standard_deviation
        = DReal.fin
            (Real.sqrt ((twoPassPopulationVariance [(1 : ℚ), 2, 3] : ℚ) : ℝ))) :=
  ⟨by simp, getStatistics_matches_two_pass [1, 2, 3] (by simp) freshStatistics⟩

end LibStatisticsCollector
